import Mathlib

/-!
# Verification of the go-amizone session & extraction engine

Shallow embedding of the go-amizone repository's core logic:

* the internal-marks / attendance cell parsing of `internal/parse/courses.go`;
* the login-form snapshot of `internal/parse/login_form.go`;
* the login state machine of `amizone.go` (`Client.login`);
* the request helper of `requests.go` (`Client.doRequest`);
* the session cache of `server/session_cache.go`;
* the CapSolver create/poll client of the `capsolver` package.

Machine integers and Go `time.Time`/`time.Duration` quantities are modelled
as `Int` seconds; Go `float32` marks values are modelled as exact decimals
in `ℚ` (every input the parser accepts is a plain decimal numeral).
Network interactions are passed in explicitly as environment values.
-/

set_option maxRecDepth 4096

/-! ## String utilities (Go `strings` package operations used by the parsers) -/

/-- Go `strings.TrimSpace`: drop leading and trailing whitespace. -/
def trimSpace (s : String) : String :=
  String.mk (((s.data.dropWhile Char.isWhitespace).reverse.dropWhile Char.isWhitespace).reverse)

/-- Whitespace-run collapser: each maximal run of whitespace becomes a single
space. The Boolean argument records whether the previous kept character was
part of a whitespace run. -/
def collapseWSAux : List Char → Bool → List Char
  | [], _ => []
  | c :: t, prevWS =>
    if c.isWhitespace then
      if prevWS then collapseWSAux t true
      else ' ' :: collapseWSAux t true
    else c :: collapseWSAux t false

/-- Modelled from the spec: the parse package's `CleanString` text normaliser is
used by `courses.go` but its definition is not under `src/`; spec §4.4 step 3
describes it as "apply text normalization (collapse whitespace, strip styling
artifacts)". We model it as collapsing whitespace runs and trimming the ends. -/
def cleanString (s : String) : String :=
  trimSpace (String.mk (collapseWSAux s.data false))

/-- Substring containment on character lists (Go `strings.Contains`). -/
def containsSub (hay needle : List Char) : Bool :=
  match hay with
  | [] => needle.isEmpty
  | _ :: t => needle.isPrefixOf hay || containsSub t needle

/-! ## `courses.go`: `isNAValue` and `isNonNumericValue` -/

/-- `courses.go` `isNAValue`: empty strings and the NA/placeholder tokens
(after uppercasing, removing `.` and spaces) denote "not applicable". -/
def isNAValue (s : String) : Bool :=
  if s == "" then true
  else
    let normal0 := String.mk ((trimSpace s).data.map Char.toUpper)
    let normal1 := String.mk (normal0.data.filter (fun c => c != '.'))
    let normal := String.mk (normal1.data.filter (fun c => c != ' '))
    (normal == "NA") || (normal == "N/A") || (normal == "-") || (normal == "--")

/-- `courses.go` `isNonNumericValue`: button/placeholder texts some campuses
show instead of numbers. -/
def isNonNumericValue (s : String) : Bool :=
  let upper := s.data.map Char.toUpper
  containsSub upper "NOT PUBLISHED".data ||
  containsSub upper "NOT AVAILABLE".data ||
  containsSub upper "NOT APPLICABLE".data ||
  containsSub upper "VIEW".data

/-! ## Decimal scanning (the regexes of `courses.go`)

`courses.go` matches marks cells against Go regexes.  We embed each regex as
a direct scanner over `List Char`; the patterns involved have disjoint
follow-sets, so greedy scanning coincides with RE2 matching.
-/

/-- Match `\d+(?:\.\d+)?` at the start of `s`; return the matched numeral and
the rest of the input. -/
def matchNumber (s : List Char) : Option (List Char × List Char) :=
  let ds := s.takeWhile Char.isDigit
  let rest := s.dropWhile Char.isDigit
  if ds.isEmpty then none
  else
    match rest with
    | '.' :: r2 =>
      let fs := r2.takeWhile Char.isDigit
      if fs.isEmpty then some (ds, rest)
      else some (ds ++ '.' :: fs, r2.dropWhile Char.isDigit)
    | _ => some (ds, rest)

/-- Match the new marks format `(\d+(?:\.\d+)?)\[[\d\.\+]+\]/(\d+(?:\.\d+)?)`
at the start of the input; return the two captured numerals (have, max). -/
def matchNewFormatAt (s : List Char) : Option (List Char × List Char) :=
  match matchNumber s with
  | none => none
  | some (h, r1) =>
    match r1 with
    | '[' :: r2 =>
      let mid := r2.takeWhile (fun c => c.isDigit || c == '.' || c == '+')
      let r3 := r2.dropWhile (fun c => c.isDigit || c == '.' || c == '+')
      if mid.isEmpty then none
      else
        match r3 with
        | ']' :: '/' :: r4 => (matchNumber r4).map (fun p => (h, p.1))
        | _ => none
    | _ => none

/-- Leftmost match of the new marks format (Go `FindStringSubmatch`). -/
def findNewFormat : List Char → Option (List Char × List Char)
  | [] => none
  | c :: t =>
    match matchNewFormatAt (c :: t) with
    | some r => some r
    | none => findNewFormat t

/-- Match the legacy pair format `(\d+(?:\.\d+)?)\s*(?:/|\[)\s*(\d+(?:\.\d+)?)`
at the start of the input; return the two captured numerals. -/
def matchPairAt (s : List Char) : Option (List Char × List Char) :=
  match matchNumber s with
  | none => none
  | some (h, r1) =>
    match r1.dropWhile Char.isWhitespace with
    | c :: r3 =>
      if c == '/' || c == '[' then
        (matchNumber (r3.dropWhile Char.isWhitespace)).map (fun p => (h, p.1))
      else none
    | [] => none

/-- Leftmost match of the legacy pair format. -/
def findPair : List Char → Option (List Char × List Char)
  | [] => none
  | c :: t =>
    match matchPairAt (c :: t) with
    | some r => some r
    | none => findPair t

/-- Leftmost match of a bare numeral `\d+(?:\.\d+)?` (Go `FindString`). -/
def findNumber : List Char → Option (List Char)
  | [] => none
  | c :: t =>
    match matchNumber (c :: t) with
    | some p => some p.1
    | none => findNumber t

/-- Digits of a numeral to a natural number. -/
def digitsToNat (ds : List Char) : Nat :=
  ds.foldl (fun n c => n * 10 + (c.toNat - '0'.toNat)) 0

/-- Exact decimal reading of a `\d+(?:\.\d+)?` numeral (Go
`strconv.ParseFloat`, modelled exactly over `ℚ`). Returns `none` on input
that is not such a numeral. -/
def parseDecimal (ds : List Char) : Option ℚ :=
  let intPart := ds.takeWhile Char.isDigit
  let rest := ds.dropWhile Char.isDigit
  if intPart.isEmpty then none
  else
    match rest with
    | [] => some (mkRat (digitsToNat intPart) 1)
    | '.' :: frac =>
      if frac.isEmpty || !(frac.all Char.isDigit) then none
      else
        some (mkRat (digitsToNat intPart * 10 ^ frac.length + digitsToNat frac) (10 ^ frac.length))
    | _ => none

/-- `models.Marks`: the have/max marks pair. The zero value is `⟨0, 0⟩`. -/
structure Marks where
  Have : ℚ
  Max : ℚ
deriving DecidableEq, Repr

/-- The internal-marks cell parser of `courses.go` (the `InternalMarks`
closure, lines 115–167): clean the text; NA/non-numeric tokens give the zero
value; otherwise try the new breakdown format, the legacy pair format, and a
bare numeral, in that order.  Total: the closure never returns an error. -/
def parseInternalMarks (raw : String) : Marks :=
  let cleanRaw := cleanString raw
  if isNAValue cleanRaw || isNonNumericValue cleanRaw then ⟨0, 0⟩
  else
    match findNewFormat cleanRaw.data with
    | some (hs, ms) =>
      match parseDecimal hs, parseDecimal ms with
      | some h, some m => ⟨h, m⟩
      | _, _ => ⟨0, 0⟩
    | none =>
      match findPair cleanRaw.data with
      | some (hs, ms) =>
        match parseDecimal hs, parseDecimal ms with
        | some h, some m => ⟨h, m⟩
        | _, _ => ⟨0, 0⟩
      | none =>
        match findNumber cleanRaw.data with
        | some gs =>
          match parseDecimal gs with
          | some g => ⟨g, 0⟩
          | none => ⟨0, 0⟩
        | none => ⟨0, 0⟩

/-! ## `login_form.go`: the Login Form Snapshot -/

/-- `parse.LoginFormFields` (only the fields read by `Client.login`). -/
structure LoginFormFields where
  VerificationToken : String
  Salt : String
  SecretNumber : String
  Signature : String
  Challenge : String
  TurnstileSiteKey : String
deriving DecidableEq, Repr

/-- `login_form.go` `LoginFormFields.IsValid`: all essential fields non-empty. -/
def LoginFormFields.IsValid (f : LoginFormFields) : Bool :=
  f.VerificationToken != "" && f.Salt != "" && f.SecretNumber != "" &&
    f.Signature != "" && f.Challenge != ""

/-! ## `amizone.go`: the login state machine (`Client.login`)

Times are `Int` seconds; `time.Since x` at instant `now` is `now - x`.
Network interactions (`doRequest` on the login page GET, the CapSolver round
trip, and the form-submission POST) are supplied by a `LoginEnv` value.
-/

/-- `amizone.go` `Credentials`. -/
structure Credentials where
  Username : String
  Password : String
deriving DecidableEq, Repr

/-- What `Client.login` observes about its form-submission POST when the
request itself succeeded: the final (post-redirect) URL path, the
"logged-in" signal parsed from the response body (`parse.IsLoggedIn`), and
the "logged-in" signal from the cookie jar (`internal.IsLoggedIn`). -/
structure SubmitOutcome where
  finalPath : String
  bodyLoggedIn : Bool
  jarLoggedIn : Bool
deriving DecidableEq, Repr

/-- Environment of one `Client.login` call: every network-dependent value
the function branches on.  `fetchLoginPage = none` means the login-page GET
failed; `some none` means `parse.ParseLoginForm` returned an error;
`solveTurnstile = none` means the CapSolver call failed;
`submitForm = none` means the form-submission POST failed. -/
structure LoginEnv where
  jarLoggedInPre : Bool
  capsolverConfigured : Bool
  fetchLoginPage : Option (Option LoginFormFields)
  solveTurnstile : Option String
  submitForm : Option SubmitOutcome

/-- The mutable fields guarded by `Client.muLogin`. -/
structure LoginState where
  lastAttempt : Int
  lastLoginSuccess : Int
  didLogin : Bool
deriving DecidableEq, Repr

/-- The distinct error results of `Client.login` (each corresponds to one
`return` site in `amizone.go`).  `malformedLoginPage` is the
`ErrFailedLogin: ErrFailedToParsePage` error returned both when the form
fails to parse and when the verification token is empty. -/
inductive LoginError where
  | throttled
  | fetchFailed
  | malformedLoginPage
  | turnstileSolveFailed
  | submitFailed
  | invalidCredentials
  | failedLogin
deriving DecidableEq, Repr

/-- Result of one `Client.login` call: the returned error (`none` on
success), the post-call `muLogin` state, whether the login-page GET was
issued, whether the credential-carrying form POST was issued, and the form
payload that was (or would have been) submitted. -/
structure LoginOutcome where
  error : Option LoginError
  state : LoginState
  fetchedLoginPage : Bool
  submittedCredentials : Bool
  payload : List (String × String)
deriving DecidableEq, Repr

/-- `amizone.go` `loginRequestEndpoint`: the login path `"/"`. -/
def loginRequestEndpoint : String := "/"

/-- `url.Values.Set`: set a key, replacing any previous value. -/
def setVal (kvs : List (String × String)) (k v : String) : List (String × String) :=
  if kvs.any (fun p => p.1 == k) then kvs.map (fun p => if p.1 == k then (k, v) else p)
  else kvs ++ [(k, v)]

/-- The login payload built by `Client.login` (`amizone.go` lines 272–291):
the verification token, credentials, `_QString` and honeypot fields, then
each anti-forgery field only when non-empty. -/
def buildLoginPayload (cred : Credentials) (f : LoginFormFields) : List (String × String) :=
  let p0 := setVal [] "__RequestVerificationToken" f.VerificationToken
  let p1 := setVal p0 "_UserName" cred.Username
  let p2 := setVal p1 "_Password" cred.Password
  let p3 := setVal p2 "_QString" ""
  let p4 := setVal p3 "honeypot" ""
  let p5 := if f.Salt != "" then setVal p4 "Salt" f.Salt else p4
  let p6 := if f.SecretNumber != "" then setVal p5 "SecretNumber" f.SecretNumber else p5
  let p7 := if f.Signature != "" then setVal p6 "Signature" f.Signature else p6
  if f.Challenge != "" then setVal p7 "Challenge" f.Challenge else p7

/-- Merging a solved Turnstile token into the payload (`amizone.go` lines
307–310): the token under `RecaptchaToken` and `cf-turnstile-response`, and
the companion flag `_QString = "test"`. -/
def addTurnstileToken (payload : List (String × String)) (tok : String) :
    List (String × String) :=
  setVal (setVal (setVal payload "RecaptchaToken" tok) "_QString" "test")
    "cf-turnstile-response" tok

/-- The tail of `Client.login` from the form POST on (`amizone.go` lines
334–372): issue the POST and classify the result.  A final path equal to the
login path means invalid credentials; otherwise both logged-in signals must
agree for success, and on success `didLogin` is set and
`lastLoginSuccess` is updated. -/
def submitAndClassify (now : Int) (env : LoginEnv) (st1 : LoginState)
    (payload : List (String × String)) : LoginOutcome :=
  match env.submitForm with
  | none =>
    { error := some LoginError.submitFailed, state := st1, fetchedLoginPage := true,
      submittedCredentials := true, payload := payload }
  | some out =>
    if out.finalPath == loginRequestEndpoint then
      { error := some LoginError.invalidCredentials, state := st1, fetchedLoginPage := true,
        submittedCredentials := true, payload := payload }
    else if !out.bodyLoggedIn then
      { error := some LoginError.failedLogin, state := st1, fetchedLoginPage := true,
        submittedCredentials := true, payload := payload }
    else if !out.jarLoggedIn then
      { error := some LoginError.failedLogin, state := st1, fetchedLoginPage := true,
        submittedCredentials := true, payload := payload }
    else
      { error := none,
        state := { st1 with didLogin := true, lastLoginSuccess := now },
        fetchedLoginPage := true, submittedCredentials := true, payload := payload }

/-- `amizone.go` `Client.login` (lines 227–373), transcribed branch by
branch.  The reuse fast path requires valid-looking cookies and a success
within the last hour; the 2-minute throttle applies only while `didLogin`
is false; then the login page is fetched and parsed, the payload is built
(empty anti-forgery fields are merely omitted), a Turnstile challenge is
solved when CapSolver is configured and a site key is present, and finally
the form is submitted and classified. -/
def loginModel (force : Bool) (now : Int) (cred : Credentials) (env : LoginEnv)
    (st : LoginState) : LoginOutcome :=
  if !force && env.jarLoggedInPre && decide (now - st.lastLoginSuccess < 3600) then
    { error := none, state := { st with didLogin := true }, fetchedLoginPage := false,
      submittedCredentials := false, payload := [] }
  else if !force && decide (now - st.lastAttempt < 120) then
    if st.didLogin then
      { error := none, state := st, fetchedLoginPage := false,
        submittedCredentials := false, payload := [] }
    else
      { error := some LoginError.throttled, state := st, fetchedLoginPage := false,
        submittedCredentials := false, payload := [] }
  else
    let st1 : LoginState := { st with lastAttempt := now }
    match env.fetchLoginPage with
    | none =>
      { error := some LoginError.fetchFailed, state := st1, fetchedLoginPage := true,
        submittedCredentials := false, payload := [] }
    | some none =>
      { error := some LoginError.malformedLoginPage, state := st1, fetchedLoginPage := true,
        submittedCredentials := false, payload := [] }
    | some (some loginForm) =>
      if loginForm.VerificationToken == "" then
        { error := some LoginError.malformedLoginPage, state := st1, fetchedLoginPage := true,
          submittedCredentials := false, payload := [] }
      else
        let p8 := buildLoginPayload cred loginForm
        if env.capsolverConfigured && loginForm.TurnstileSiteKey != "" then
          match env.solveTurnstile with
          | none =>
            { error := some LoginError.turnstileSolveFailed, state := st1,
              fetchedLoginPage := true, submittedCredentials := false, payload := p8 }
          | some tok =>
            submitAndClassify now env st1 (addTurnstileToken p8 tok)
        else
          submitAndClassify now env st1 p8

/-! ## `server/session_cache.go`: the per-credential session cache

Clients are identified by a numeric id (pointer identity in Go).  The map is
modelled as a function from keys to optional entries.
-/

/-- `session_cache.go` `cachedSession`. -/
structure CachedSession where
  clientId : Nat
  createdAt : Int
  lastUsed : Int
deriving DecidableEq, Repr

/-- `session_cache.go` `SessionCache` (the map and TTL; locks appear in the
event-trace model below). -/
structure SessionCache where
  sessions : String → Option CachedSession
  ttl : Int

/-- `session_cache.go` `SessionCache.makeKey`: plain concatenation
`username + ":" + password`. -/
def makeKey (username password : String) : String :=
  username ++ ":" ++ password

/-- `session_cache.go` `SessionCache.Get`: look up the entry; an entry whose
age strictly exceeds the TTL is deleted and reported absent; otherwise
`lastUsed` is refreshed and the cached client is returned. -/
def SessionCache.Get (sc : SessionCache) (now : Int) (username password : String) :
    Option Nat × SessionCache :=
  let key := makeKey username password
  match sc.sessions key with
  | none => (none, sc)
  | some s =>
    if decide (sc.ttl < now - s.createdAt) then
      (none, { sc with sessions := fun k => if k == key then none else sc.sessions k })
    else
      (some s.clientId,
        { sc with sessions := fun k =>
            if k == key then some { s with lastUsed := now } else sc.sessions k })

/-- `session_cache.go` `SessionCache.cleanup`: the background sweep removes
every entry whose age strictly exceeds the TTL and touches nothing else. -/
def SessionCache.cleanup (sc : SessionCache) (now : Int) : SessionCache :=
  { sc with sessions := fun k =>
      match sc.sessions k with
      | some s => if decide (now - s.createdAt > sc.ttl) then none else some s
      | none => none }

/-! ### Event-trace model of `SessionCache.GetOrCreate`

`GetOrCreate` first probes the map under the read lock; on a hit it
refreshes `lastUsed` under the write lock; on a miss (or an expired entry)
it takes the write lock, re-checks, and — still holding the write lock —
constructs a new `amizone.Client`, which performs the initial network login
(`NewClientWithOptions` → `Client.login`), then inserts it.  The trace
records lock operations and the network login in program order.
-/

/-- Events of one `SessionCache.GetOrCreate` call. -/
inductive CacheEvent where
  | readLock
  | readUnlock
  | writeLock
  | writeUnlock
  | networkLogin
  | insertEntry (key : String)
deriving DecidableEq, Repr

/-- The event trace of `session_cache.go` `SessionCache.GetOrCreate`
(lines 97–146), for a sequentially-executed call (the in-lock re-check
observes the same map as the read-locked probe). -/
def GetOrCreateTrace (sc : SessionCache) (now : Int) (username password : String) :
    List CacheEvent :=
  let key := makeKey username password
  match sc.sessions key with
  | some s =>
    if decide (now - s.createdAt ≤ sc.ttl) then
      [CacheEvent.readLock, CacheEvent.readUnlock, CacheEvent.writeLock,
        CacheEvent.writeUnlock]
    else
      [CacheEvent.readLock, CacheEvent.readUnlock, CacheEvent.writeLock,
        CacheEvent.networkLogin, CacheEvent.insertEntry key, CacheEvent.writeUnlock]
  | none =>
    [CacheEvent.readLock, CacheEvent.readUnlock, CacheEvent.writeLock,
      CacheEvent.networkLogin, CacheEvent.insertEntry key, CacheEvent.writeUnlock]

/-- Scan a trace and report whether a network login happens while the write
lock is held (second argument: lock currently held). -/
def anyLoginUnderWriteLock : List CacheEvent → Bool → Bool
  | [], _ => false
  | e :: t, held =>
    match e with
    | CacheEvent.writeLock => anyLoginUnderWriteLock t true
    | CacheEvent.writeUnlock => anyLoginUnderWriteLock t false
    | CacheEvent.networkLogin => held || anyLoginUnderWriteLock t held
    | _ => anyLoginUnderWriteLock t held

/-- Whether a trace performs network I/O (the login) under the cache-wide
write lock. -/
def lockHeldAcrossLogin (tr : List CacheEvent) : Bool :=
  anyLoginUnderWriteLock tr false

/-! ## `requests.go`: `Client.doRequest` -/

/-- What `doRequest` observes about its HTTP round trip when the request
itself did not fail: the status code and the body's logged-in signal. -/
structure HttpResp where
  status : Nat
  bodyLoggedIn : Bool
deriving DecidableEq, Repr

/-- The error results of `Client.doRequest`.  `emptyCredentials` is the
`ErrFailedLogin: invalid credentials` error returned before anything else
when the client's credentials equal the zero pair. -/
inductive ReqError where
  | emptyCredentials
  | loginFailed (e : LoginError)
  | visitFailed
  | non200 (code : Nat)
  | reloginFailed
deriving DecidableEq, Repr

/-- Environment of one `doRequest` call: the login environment used by a
pre-request `login(false)`, the response to the main request, the login
environment used by a `login(true)` after a dead-session detection, and the
response to the replayed request. -/
structure DoReqEnv where
  now : Int
  firstLoginEnv : LoginEnv
  response : Option HttpResp
  reloginEnv : LoginEnv
  response2 : Option HttpResp

/-- Result of one `doRequest` call: the response (`none` on error), the
error, whether the main HTTP request was issued, how many `Client.login`
calls were made, and the resulting login state. -/
structure DoReqOutcome where
  result : Option HttpResp
  error : Option ReqError
  requestIssued : Bool
  loginCalls : Nat
  state : LoginState
deriving DecidableEq, Repr

/-- The recursive tail of `doRequest`: the replay `a.doRequest(false, …)`
issued after a successful re-login.  With `tryLogin = false` neither login
branch can run, so only the credentials check and the plain request remain. -/
def doRequestReplay (cred : Credentials) (resp2 : Option HttpResp) (st : LoginState) :
    DoReqOutcome :=
  if cred == ⟨"", ""⟩ then
    { result := none, error := some ReqError.emptyCredentials, requestIssued := false,
      loginCalls := 0, state := st }
  else
    match resp2 with
    | none =>
      { result := none, error := some ReqError.visitFailed, requestIssued := true,
        loginCalls := 0, state := st }
    | some r =>
      if r.status != 200 then
        { result := none, error := some (ReqError.non200 r.status), requestIssued := true,
          loginCalls := 0, state := st }
      else
        { result := some r, error := none, requestIssued := true, loginCalls := 0,
          state := st }

/-- `requests.go` `Client.doRequest` (lines 26–105), transcribed: the
empty-credentials guard fails before any request or login; with `tryLogin`
and no prior login a `login(false)` runs first (and clears `tryLogin` on
success); the request is issued and a non-200 status is an error; if
`tryLogin` is still set and the body is not logged in, a forced `login(true)`
runs and on success the request is replayed once with `tryLogin = false`. -/
def doRequestModel (cred : Credentials) (tryLogin : Bool) (env : DoReqEnv)
    (st : LoginState) : DoReqOutcome :=
  if cred == ⟨"", ""⟩ then
    { result := none, error := some ReqError.emptyCredentials, requestIssued := false,
      loginCalls := 0, state := st }
  else
    let pre :=
      if tryLogin && !st.didLogin then
        let lo := loginModel false env.now cred env.firstLoginEnv st
        match lo.error with
        | some e => (lo.state, tryLogin, some e, 1)
        | none => (lo.state, false, none, 1)
      else (st, tryLogin, none, 0)
    match pre with
    | (st1, tryLogin1, preErr, calls1) =>
      match preErr with
      | some e =>
        { result := none, error := some (ReqError.loginFailed e), requestIssued := false,
          loginCalls := calls1, state := st1 }
      | none =>
        match env.response with
        | none =>
          { result := none, error := some ReqError.visitFailed, requestIssued := true,
            loginCalls := calls1, state := st1 }
        | some resp =>
          if resp.status != 200 then
            { result := none, error := some (ReqError.non200 resp.status),
              requestIssued := true, loginCalls := calls1, state := st1 }
          else if tryLogin1 && !(cred == ⟨"", ""⟩) && !resp.bodyLoggedIn then
            let lo := loginModel true env.now cred env.reloginEnv st1
            match lo.error with
            | some _ =>
              { result := none, error := some ReqError.reloginFailed, requestIssued := true,
                loginCalls := calls1 + 1, state := lo.state }
            | none =>
              let replay := doRequestReplay cred env.response2 lo.state
              { replay with requestIssued := true, loginCalls := calls1 + 1 }
          else
            { result := some resp, error := none, requestIssued := true,
              loginCalls := calls1, state := st1 }

/-- `amizone.go` `NewClient` / `NewClientWithOptions` tail: with the zero
credential pair the client is returned without any login attempt; otherwise
`login(false)` runs.  Returns whether a login was attempted and the login
outcome. -/
def newClientModel (cred : Credentials) (now : Int) (env : LoginEnv) (st0 : LoginState) :
    Bool × LoginOutcome :=
  if cred == ⟨"", ""⟩ then
    (false,
      { error := none, state := st0, fetchedLoginPage := false,
        submittedCredentials := false, payload := [] })
  else (true, loginModel false now cred env st0)

/-! ## The CapSolver client (`capsolver` package)

The poll loop of `waitForTaskResult` ticks every 2 s and races a 120 s
timeout; ticks strictly before the timeout number `59` (`2·(k+1) < 120`).
Each attempt's environment supplies the `createTask` result and the poll
responses.
-/

/-- One `getTaskResult` poll as observed by `waitForTaskResult`:
a network/decoding failure (logged and retried), an API error
(`errorId ≠ 0`, terminal for the attempt), a `processing` status, or a
`ready` status carrying the solution token. -/
inductive PollResponse where
  | netErr
  | apiErr (code : String)
  | processing
  | ready (token : String)
deriving DecidableEq, Repr

/-- The error results of one create+poll attempt. -/
inductive SolveError where
  | createNetworkFailed
  | apiError (code : String)
  | noTaskIdReturned
  | timeoutWaiting
  | emptyTokenSolution
deriving DecidableEq, Repr

/-- The result of `createTask` as observed by the solve loop. -/
inductive CreateResult where
  | netErr
  | apiErr (code : String)
  | noTaskId
  | ok (taskId : String)
deriving DecidableEq, Repr

/-- `capsolver.go` `createTask`, on an abstract request result. -/
def createTaskModel : CreateResult → Except SolveError String
  | CreateResult.netErr => Except.error SolveError.createNetworkFailed
  | CreateResult.apiErr c => Except.error (SolveError.apiError c)
  | CreateResult.noTaskId => Except.error SolveError.noTaskIdReturned
  | CreateResult.ok taskId => Except.ok taskId

/-- Number of 2-second ticks that occur strictly before the 120-second
timeout of `waitForTaskResult` fires. -/
def pollTicks : Nat := 59

/-- The poll loop of `capsolver.go` `waitForTaskResult`: consume poll
responses until a terminal one or until the tick budget (the 120 s ceiling)
is exhausted.  Network/decoding failures and `processing` statuses continue;
an API error is terminal; `ready` with an empty token is the
"no token in solution" error. -/
def pollLoop (polls : Nat → PollResponse) : Nat → Nat → Except SolveError String
  | 0, _ => Except.error SolveError.timeoutWaiting
  | fuel + 1, k =>
    match polls k with
    | PollResponse.netErr => pollLoop polls fuel (k + 1)
    | PollResponse.apiErr c => Except.error (SolveError.apiError c)
    | PollResponse.processing => pollLoop polls fuel (k + 1)
    | PollResponse.ready tok =>
      if tok == "" then Except.error SolveError.emptyTokenSolution else Except.ok tok

/-- `capsolver.go` `waitForTaskResult`: run the poll loop with the 120 s
tick budget. -/
def waitForTaskResult (polls : Nat → PollResponse) : Except SolveError String :=
  pollLoop polls pollTicks 0

/-- Environment of one create+poll attempt. -/
structure AttemptEnv where
  create : CreateResult
  polls : Nat → PollResponse

/-- One create+poll attempt of `SolveTurnstile` / `SolveRecaptchaV2`. -/
def solveAttempt (env : AttemptEnv) : Except SolveError String :=
  match createTaskModel env.create with
  | Except.error e => Except.error e
  | Except.ok _ => waitForTaskResult env.polls

/-- Result of a whole solve call: the token or the last error (`none` only
if no attempt ran), the number of attempts made, and the backoff sleeps (in
seconds) taken before retries. -/
structure SolveOutcome where
  result : Except (Option SolveError) String
  attemptsMade : Nat
  backoffsSec : List Nat
deriving Repr

/-- The retry loop shared by `capsolver.go` `SolveTurnstile` and
`SolveRecaptchaV2`: up to `fuel` attempts (3 from the top), a fixed 2 s
sleep before every attempt but the first, remembering the last error. -/
def solveLoop (env : Nat → AttemptEnv) :
    Nat → Nat → List Nat → Option SolveError → SolveOutcome
  | 0, i, backoffs, lastErr =>
    { result := Except.error lastErr, attemptsMade := i, backoffsSec := backoffs }
  | fuel + 1, i, backoffs, _ =>
    let backoffs1 := if 0 < i then backoffs ++ [2] else backoffs
    match solveAttempt (env i) with
    | Except.error e => solveLoop env fuel (i + 1) backoffs1 (some e)
    | Except.ok tok =>
      { result := Except.ok tok, attemptsMade := i + 1, backoffsSec := backoffs1 }

/-- `capsolver.go` `Client.SolveTurnstile` (always proxy-less). -/
def solveTurnstile (env : Nat → AttemptEnv) : SolveOutcome :=
  solveLoop env 3 0 [] none

/-- `capsolver.go` `Client.SolveRecaptchaV2`: identical control flow (the
proxy only changes the task payload, not the loop). -/
def solveRecaptchaV2 (env : Nat → AttemptEnv) : SolveOutcome :=
  solveLoop env 3 0 [] none

/-! ## Concrete instances used by witnesses and counterexamples -/

/-- A snapshot with a verification token but empty anti-forgery fields:
`IsValid` is false, yet `Client.login` only checks the token. -/
def c1Form : LoginFormFields :=
  { VerificationToken := "tok123", Salt := "", SecretNumber := "", Signature := "",
    Challenge := "", TurnstileSiteKey := "" }

/-- Login environment that serves `c1Form` and a fully successful submission. -/
def c1Env : LoginEnv :=
  { jarLoggedInPre := false, capsolverConfigured := false,
    fetchLoginPage := some (some c1Form), solveTurnstile := none,
    submitForm := some { finalPath := "/Home", bodyLoggedIn := true, jarLoggedIn := true } }

/-- Concrete credentials for the C1 run. -/
def c1Cred : Credentials := { Username := "user", Password := "pw" }

/-- Fresh login state (no prior attempt or success, in the distant past). -/
def c1State : LoginState := { lastAttempt := 0, lastLoginSuccess := 0, didLogin := false }

/-- Environment serving a snapshot whose verification token is empty. -/
def c1aEnv : LoginEnv :=
  { jarLoggedInPre := false, capsolverConfigured := false,
    fetchLoginPage := some (some
      { VerificationToken := "", Salt := "s", SecretNumber := "1", Signature := "sig",
        Challenge := "ch", TurnstileSiteKey := "" }),
    solveTurnstile := none,
    submitForm := some { finalPath := "/Home", bodyLoggedIn := true, jarLoggedIn := true } }

/-- A valid snapshot for the concrete C2 run. -/
def c2Form : LoginFormFields :=
  { VerificationToken := "tok", Salt := "s", SecretNumber := "1", Signature := "sig",
    Challenge := "ch", TurnstileSiteKey := "" }

/-- Environment of the concrete C2 run: successful redirect with both
logged-in signals positive. -/
def c2Env : LoginEnv :=
  { jarLoggedInPre := false, capsolverConfigured := false,
    fetchLoginPage := some (some c2Form), solveTurnstile := none,
    submitForm := some { finalPath := "/Home", bodyLoggedIn := true, jarLoggedIn := true } }

/-- Environment for the concrete C3 run (no valid cookies). -/
def c3Env : LoginEnv :=
  { jarLoggedInPre := false, capsolverConfigured := false,
    fetchLoginPage := none, solveTurnstile := none, submitForm := none }

/-- Environment for the concrete C8 run: valid-looking cookies allow reuse. -/
def c8Env : LoginEnv :=
  { jarLoggedInPre := true, capsolverConfigured := false,
    fetchLoginPage := none, solveTurnstile := none, submitForm := none }

/-- A one-entry cache created at time 0 with the default 30-minute TTL. -/
def c4Cache : SessionCache :=
  { sessions := fun k => if k == makeKey "alice" "pw" then some ⟨7, 0, 0⟩ else none,
    ttl := 1800 }

/-- An empty session cache with the default 30-minute TTL. -/
def c9EmptyCache : SessionCache := { sessions := fun _ => none, ttl := 1800 }

/-- A one-entry cache holding a fresh session for the C9 witness. -/
def c9HitCache : SessionCache :=
  { sessions := fun k => if k == makeKey "bob" "pw2" then some ⟨3, 0, 0⟩ else none,
    ttl := 1800 }

/-- A concrete solver environment whose tasks never leave `processing`. -/
def c6Env : Nat → AttemptEnv :=
  fun _ => { create := CreateResult.ok "task-1", polls := fun _ => PollResponse.processing }

/-- A login environment value for the C10 witness (never consulted). -/
def c10LEnv : LoginEnv :=
  { jarLoggedInPre := false, capsolverConfigured := false,
    fetchLoginPage := none, solveTurnstile := none, submitForm := none }

/-! # Theorems -/

/-- C5: the internal-marks cell parser maps `"20.40[20.40+0.00]/40.00"` to
`{Have := 20.40, Max := 40.00}`, `"50[49+1.00]/49"` to `{Have := 50, Max := 49}`,
and both `"NA"` and `"Not Published"` to the zero marks value; the parser is
total, so record parsing succeeds without error in every one of these cases. -/
theorem C5_internal_marks_formats :
    parseInternalMarks "20.40[20.40+0.00]/40.00" = ⟨mkRat 102 5, mkRat 40 1⟩ ∧
    parseInternalMarks "50[49+1.00]/49" = ⟨mkRat 50 1, mkRat 49 1⟩ ∧
    parseInternalMarks "NA" = ⟨mkRat 0 1, mkRat 0 1⟩ ∧
    parseInternalMarks "Not Published" = ⟨mkRat 0 1, mkRat 0 1⟩ := by
  refine ⟨by decide, by decide, by decide, by decide⟩

/-- Splitting a list at a separator absent from both prefixes is unique. -/
theorem colon_split_unique : ∀ (a c b d : List Char),
    ':' ∉ a → ':' ∉ c → a ++ ':' :: b = c ++ ':' :: d → a = c ∧ b = d := by
  intro a
  induction a with
  | nil =>
    intro c b d _ h2 h
    cases c with
    | nil => simp_all
    | cons y ys =>
      simp only [List.nil_append, List.cons_append, List.cons.injEq] at h
      exact absurd (h.1 ▸ List.mem_cons_self y ys) h2
  | cons x xs ih =>
    intro c b d h1 h2 h
    cases c with
    | nil =>
      simp only [List.cons_append, List.nil_append, List.cons.injEq] at h
      exact absurd (h.1 ▸ List.mem_cons_self x xs) h1
    | cons y ys =>
      simp only [List.cons_append, List.cons.injEq] at h
      obtain ⟨hxy, htl⟩ := h
      have h1' : ':' ∉ xs := fun hm => h1 (List.mem_cons_of_mem _ hm)
      have h2' : ':' ∉ ys := fun hm => h2 (List.mem_cons_of_mem _ hm)
      obtain ⟨he, hb⟩ := ih ys b d h1' h2' htl
      exact ⟨by rw [hxy, he], hb⟩

/-- C7 counterexample: the key derivation is not injective on arbitrary
credential pairs — the distinct pairs `("a:b", "c")` and `("a", "b:c")`
share the cache key `"a:b:c"` and hence the same session entry. -/
theorem C7_counterexample :
    makeKey "a:b" "c" = makeKey "a" "b:c" ∧
      ¬ ((("a:b" : String), ("c" : String)) = (("a" : String), ("b:c" : String))) := by
  refine ⟨by decide, by decide⟩

/-- C7 amended: the key derivation is a deterministic function of the
credential pair, and it is injective provided the usernames contain no `':'`
separator; for such pairs, two pairs map to the same cache key iff their
(username, password) pairs are equal. -/
theorem C7_amended (u1 p1 u2 p2 : String)
    (h1 : ':' ∉ u1.data) (h2 : ':' ∉ u2.data) :
    makeKey u1 p1 = makeKey u2 p2 ↔ u1 = u2 ∧ p1 = p2 := by
  constructor
  · intro h
    have hd : u1.data ++ ':' :: p1.data = u2.data ++ ':' :: p2.data := by
      have hc := congrArg String.data h
      simpa [makeKey, String.data_append] using hc
    obtain ⟨hu, hp⟩ := colon_split_unique u1.data u2.data p1.data p2.data h1 h2 hd
    exact ⟨congrArg String.mk hu, congrArg String.mk hp⟩
  · rintro ⟨rfl, rfl⟩
    rfl

/-- C7 witness: the amended iff evaluated at a concrete credential pair. -/
theorem C7_amended_witness : makeKey "alice" "hunter2" = makeKey "alice" "hunter2" :=
  (C7_amended "alice" "hunter2" "alice" "hunter2" (by decide) (by decide)).mpr ⟨rfl, rfl⟩

/-! ### C1: snapshot validity and the abort-before-submission guard -/

/-- C1 counterexample: with the invalid snapshot `c1Form` (empty salt, secret
number, signature, and challenge — `IsValid = false`), `Client.login` does
not abort with the malformed-login-page error: it issues the credential form
POST and completes. -/
theorem C1_counterexample :
    c1Form.IsValid = false ∧
    (loginModel false 10000 c1Cred c1Env c1State).submittedCredentials = true ∧
    (loginModel false 10000 c1Cred c1Env c1State).error ≠ some LoginError.malformedLoginPage := by
  refine ⟨by decide, by decide, by decide⟩

/-- C1 amended: the abort-before-submission guard of `Client.login` checks
only the verification token: if the fetched snapshot's verification token is
empty (or the page fails to parse), the attempt returns the
malformed-login-page error and no credential POST is issued; empty
anti-forgery fields alone do not abort the attempt. -/
theorem C1_amended (force : Bool) (now : Int) (cred : Credentials) (env : LoginEnv)
    (st : LoginState) (f : LoginFormFields)
    (hreuse : (!force && env.jarLoggedInPre && decide (now - st.lastLoginSuccess < 3600)) = false)
    (hthrottle : (!force && decide (now - st.lastAttempt < 120)) = false)
    (hf : env.fetchLoginPage = some (some f))
    (ht : f.VerificationToken = "") :
    (loginModel force now cred env st).error = some LoginError.malformedLoginPage ∧
    (loginModel force now cred env st).submittedCredentials = false := by
  simp [loginModel, hreuse, hthrottle, hf, ht]

/-- C1 witness: the amended theorem evaluated on a concrete empty-token run. -/
theorem C1_amended_witness :
    (loginModel false 10000 c1Cred c1aEnv c1State).error = some LoginError.malformedLoginPage ∧
    (loginModel false 10000 c1Cred c1aEnv c1State).submittedCredentials = false :=
  C1_amended false 10000 c1Cred c1aEnv c1State
    { VerificationToken := "", Salt := "s", SecretNumber := "1", Signature := "sig",
      Challenge := "ch", TurnstileSiteKey := "" }
    (by decide) (by decide) rfl rfl

/-! ### C2: classification of a completed form submission -/

/-- Classification behaviour of the post-submission tail of `Client.login`. -/
theorem submitAndClassify_spec (now : Int) (env : LoginEnv) (st1 : LoginState)
    (payload : List (String × String)) (out : SubmitOutcome)
    (hs : env.submitForm = some out) :
    (out.finalPath = loginRequestEndpoint →
      (submitAndClassify now env st1 payload).error = some LoginError.invalidCredentials) ∧
    (out.finalPath ≠ loginRequestEndpoint → out.bodyLoggedIn = true → out.jarLoggedIn = true →
      (submitAndClassify now env st1 payload).error = none) ∧
    (out.finalPath ≠ loginRequestEndpoint →
      (out.bodyLoggedIn = false ∨ out.jarLoggedIn = false) →
      (submitAndClassify now env st1 payload).error = some LoginError.failedLogin) := by
  refine ⟨?_, ?_, ?_⟩
  · intro hpath
    simp [submitAndClassify, hs, hpath]
  · intro hpath hb hj
    simp [submitAndClassify, hs, hpath, hb, hj]
  · intro hpath hor
    rcases hor with hb | hj
    · simp [submitAndClassify, hs, hpath, hb]
    · cases hbody : out.bodyLoggedIn <;>
        simp [submitAndClassify, hs, hpath, hbody, hj]

/-- When the login flow passes the reuse, throttle, parse and challenge
stages, it ends in `submitAndClassify` with the attempt timestamp set. -/
theorem loginModel_submits (force : Bool) (now : Int) (cred : Credentials) (env : LoginEnv)
    (st : LoginState) (f : LoginFormFields)
    (hreuse : (!force && env.jarLoggedInPre && decide (now - st.lastLoginSuccess < 3600)) = false)
    (hthrottle : (!force && decide (now - st.lastAttempt < 120)) = false)
    (hf : env.fetchLoginPage = some (some f))
    (ht : f.VerificationToken ≠ "")
    (hcap : (env.capsolverConfigured && f.TurnstileSiteKey != "") = false
        ∨ ∃ tok, env.solveTurnstile = some tok) :
    ∃ payload, loginModel force now cred env st =
      submitAndClassify now env { st with lastAttempt := now } payload := by
  rcases hcap with hcap | ⟨tok, htok⟩
  · exact ⟨buildLoginPayload cred f, by simp [loginModel, hreuse, hthrottle, hf, ht, hcap]⟩
  · by_cases hc : (env.capsolverConfigured && f.TurnstileSiteKey != "") = true
    · exact ⟨addTurnstileToken (buildLoginPayload cred f) tok,
        by simp [loginModel, hreuse, hthrottle, hf, ht, hc, htok]⟩
    · exact ⟨buildLoginPayload cred f, by simp [loginModel, hreuse, hthrottle, hf, ht,
        Bool.eq_false_iff.mpr hc]⟩

/-- C2: for a submission that `Client.login` classifies — a final URL path
equal to the login path yields the invalid-credentials error; a redirect
elsewhere with both logged-in signals positive yields success; a redirect
elsewhere with either signal negative yields the generic login-failed error,
which is distinct from invalid-credentials. -/
theorem C2_login_classification (force : Bool) (now : Int) (cred : Credentials)
    (env : LoginEnv) (st : LoginState) (f : LoginFormFields) (out : SubmitOutcome)
    (hreuse : (!force && env.jarLoggedInPre && decide (now - st.lastLoginSuccess < 3600)) = false)
    (hthrottle : (!force && decide (now - st.lastAttempt < 120)) = false)
    (hf : env.fetchLoginPage = some (some f))
    (ht : f.VerificationToken ≠ "")
    (hcap : (env.capsolverConfigured && f.TurnstileSiteKey != "") = false
        ∨ ∃ tok, env.solveTurnstile = some tok)
    (hs : env.submitForm = some out) :
    (out.finalPath = loginRequestEndpoint →
      (loginModel force now cred env st).error = some LoginError.invalidCredentials) ∧
    (out.finalPath ≠ loginRequestEndpoint → out.bodyLoggedIn = true → out.jarLoggedIn = true →
      (loginModel force now cred env st).error = none) ∧
    (out.finalPath ≠ loginRequestEndpoint →
      (out.bodyLoggedIn = false ∨ out.jarLoggedIn = false) →
      (loginModel force now cred env st).error = some LoginError.failedLogin) ∧
    LoginError.failedLogin ≠ LoginError.invalidCredentials := by
  obtain ⟨payload, hp⟩ :=
    loginModel_submits force now cred env st f hreuse hthrottle hf ht hcap
  rw [hp]
  obtain ⟨h1, h2, h3⟩ :=
    submitAndClassify_spec now env { st with lastAttempt := now } payload out hs
  exact ⟨h1, h2, h3, by decide⟩

/-- C2 witness: success classification on a concrete run. -/
theorem C2_witness :
    (loginModel false 10000 ⟨"user", "pw"⟩ c2Env ⟨0, 0, false⟩).error = none :=
  (C2_login_classification false 10000 ⟨"user", "pw"⟩ c2Env ⟨0, 0, false⟩ c2Form
      { finalPath := "/Home", bodyLoggedIn := true, jarLoggedIn := true }
      (by decide) (by decide) rfl (by decide) (Or.inl (by decide)) rfl).2.1
    (by decide) rfl rfl

/-! ### C3: the 2-minute throttle -/

/-- C3: with `force = false` and the reuse fast path inapplicable, an attempt
less than 2 minutes after the previous one fails fast with the throttled
error and issues no network request when no login has succeeded yet, while a
prior success means the throttle never produces the throttled error. -/
theorem C3_login_throttle (now : Int) (cred : Credentials) (env : LoginEnv)
    (st : LoginState)
    (hreuse : (env.jarLoggedInPre && decide (now - st.lastLoginSuccess < 3600)) = false)
    (hthrottle : now - st.lastAttempt < 120) :
    (st.didLogin = false →
      (loginModel false now cred env st).error = some LoginError.throttled ∧
      (loginModel false now cred env st).fetchedLoginPage = false ∧
      (loginModel false now cred env st).submittedCredentials = false) ∧
    (st.didLogin = true →
      (loginModel false now cred env st).error ≠ some LoginError.throttled) := by
  have ht : decide (now - st.lastAttempt < 120) = true := decide_eq_true hthrottle
  constructor
  · intro hd
    simp [loginModel, hreuse, ht, hd]
  · intro hd
    simp [loginModel, hreuse, ht, hd]

/-- C3 witness: a call 100 s after a failed attempt is throttled with no
network traffic. -/
theorem C3_witness :
    (loginModel false 100 ⟨"user", "pw"⟩ c3Env ⟨0, 0, false⟩).error =
        some LoginError.throttled ∧
      (loginModel false 100 ⟨"user", "pw"⟩ c3Env ⟨0, 0, false⟩).fetchedLoginPage = false ∧
      (loginModel false 100 ⟨"user", "pw"⟩ c3Env ⟨0, 0, false⟩).submittedCredentials = false :=
  (C3_login_throttle 100 ⟨"user", "pw"⟩ c3Env ⟨0, 0, false⟩ (by decide) (by decide)).1 rfl

/-! ### C8: frame conditions of `Client.login` -/

/-- C8: every erroring `Client.login` call leaves `didLogin` and
`lastLoginSuccess` unchanged (only `lastAttempt` may move); every successful
call sets `didLogin`; and a successful call that actually submitted the form
(a fresh, non-reuse login) updates `lastLoginSuccess` to the current time. -/
theorem C8_login_frame (force : Bool) (now : Int) (cred : Credentials) (env : LoginEnv)
    (st : LoginState) :
    (∀ e, (loginModel force now cred env st).error = some e →
      (loginModel force now cred env st).state.didLogin = st.didLogin ∧
      (loginModel force now cred env st).state.lastLoginSuccess = st.lastLoginSuccess) ∧
    ((loginModel force now cred env st).error = none →
      (loginModel force now cred env st).state.didLogin = true) ∧
    ((loginModel force now cred env st).error = none →
      (loginModel force now cred env st).submittedCredentials = true →
      (loginModel force now cred env st).state.lastLoginSuccess = now) := by
  unfold loginModel submitAndClassify
  repeat' split
  all_goals simp_all

/-- C8 witness: a successful (session-reuse) call sets the authenticated
flag. -/
theorem C8_witness :
    (loginModel false 100 ⟨"user", "pw"⟩ c8Env ⟨0, 0, false⟩).state.didLogin = true :=
  (C8_login_frame false 100 ⟨"user", "pw"⟩ c8Env ⟨0, 0, false⟩).2.1 (by decide)

/-! ### C4: session-cache TTL behaviour -/

/-- C4: an entry whose age exceeds the TTL is never returned by `Get` (and is
removed by it); an entry within the TTL is returned; and the background
sweep removes exactly the entries whose age exceeds the TTL, leaving the
rest untouched. -/
theorem C4_session_cache_ttl (sc : SessionCache) (now : Int) (u p : String)
    (s : CachedSession) (h : sc.sessions (makeKey u p) = some s) :
    (sc.ttl < now - s.createdAt →
      (sc.Get now u p).1 = none ∧
      (sc.Get now u p).2.sessions (makeKey u p) = none) ∧
    (now - s.createdAt ≤ sc.ttl → (sc.Get now u p).1 = some s.clientId) ∧
    (∀ k, ((sc.cleanup now).sessions k = none ↔
        sc.sessions k = none ∨ ∃ e, sc.sessions k = some e ∧ sc.ttl < now - e.createdAt) ∧
      ∀ e, sc.sessions k = some e → now - e.createdAt ≤ sc.ttl →
        (sc.cleanup now).sessions k = some e) := by
  refine ⟨?_, ?_, ?_⟩
  · intro hexp
    have hd : decide (sc.ttl < now - s.createdAt) = true := decide_eq_true hexp
    simp [SessionCache.Get, h, hd]
  · intro hfresh
    have hd : decide (sc.ttl < now - s.createdAt) = false :=
      decide_eq_false (not_lt.mpr hfresh)
    simp [SessionCache.Get, h, hd]
  · intro k
    constructor
    · cases hk : sc.sessions k with
      | none => simp [SessionCache.cleanup, hk]
      | some e =>
        by_cases he : sc.ttl < now - e.createdAt
        · simp [SessionCache.cleanup, hk, decide_eq_true he]
          omega
        · simp [SessionCache.cleanup, hk, decide_eq_false he]
          omega
    · intro e hk hfresh
      have hd : decide (now - e.createdAt > sc.ttl) = false :=
        decide_eq_false (not_lt.mpr hfresh)
      simp [SessionCache.cleanup, hk, hd]
      omega

/-- C4 witness: one second before the TTL elapses, `Get` still returns the
cached client. -/
theorem C4_witness : (c4Cache.Get 1799 "alice" "pw").1 = some 7 :=
  (C4_session_cache_ttl c4Cache 1799 "alice" "pw" ⟨7, 0, 0⟩ (by decide)).2.1 (by decide)

/-! ### C9: the cache lock and network I/O -/

/-- C9 counterexample: on a cache miss, `GetOrCreate` constructs the client
— performing the network login — while holding the cache-wide write lock,
so the lock is not held only for map manipulation. -/
theorem C9_counterexample :
    lockHeldAcrossLogin (GetOrCreateTrace c9EmptyCache 0 "alice" "pw") = true := by
  decide

/-- C9 amended: on the miss (or expired-entry) path, `GetOrCreate` performs
the network login under the cache-wide write lock — so concurrent
session-establishing calls for distinct credentials can block each other;
only the fresh-hit fast path performs no network I/O and holds the lock for
pointer manipulation alone. -/
theorem C9_amended (sc : SessionCache) (now : Int) (u p : String) :
    (sc.sessions (makeKey u p) = none →
      lockHeldAcrossLogin (GetOrCreateTrace sc now u p) = true) ∧
    (∀ s, sc.sessions (makeKey u p) = some s → now - s.createdAt ≤ sc.ttl →
      lockHeldAcrossLogin (GetOrCreateTrace sc now u p) = false ∧
      CacheEvent.networkLogin ∉ GetOrCreateTrace sc now u p) := by
  constructor
  · intro h
    simp [GetOrCreateTrace, h, lockHeldAcrossLogin, anyLoginUnderWriteLock]
  · intro s hs hf
    have hd : decide (now - s.createdAt ≤ sc.ttl) = true := decide_eq_true hf
    simp only [GetOrCreateTrace, hs, hd]
    simp [lockHeldAcrossLogin, anyLoginUnderWriteLock]

/-- C9 witness: the amended fast-path statement on a concrete fresh hit. -/
theorem C9_amended_witness :
    lockHeldAcrossLogin (GetOrCreateTrace c9HitCache 10 "bob" "pw2") = false :=
  ((C9_amended c9HitCache 10 "bob" "pw2").2 ⟨3, 0, 0⟩ (by decide) (by decide)).1

/-! ### C6: CapSolver polling and retry budget -/

/-- The poll loop returns the timeout error when every poll reports
`processing`. -/
theorem pollLoop_all_processing (polls : Nat → PollResponse)
    (hp : ∀ j, polls j = PollResponse.processing) :
    ∀ fuel k, pollLoop polls fuel k = Except.error SolveError.timeoutWaiting := by
  intro fuel
  induction fuel with
  | zero => intro k; rfl
  | succ n ih =>
    intro k
    simp [pollLoop, hp k, ih]

/-- Budget/backoff invariant of the retry loop: starting at attempt index
`i` with the backoff list the loop maintains, the attempt count stays
within `i + fuel` and the backoff list is always one fixed 2-second sleep
per attempt after the first. -/
theorem solveLoop_budget (env : Nat → AttemptEnv) :
    ∀ (fuel i : Nat) (lastErr : Option SolveError),
      (solveLoop env fuel i (List.replicate (i - 1) 2) lastErr).attemptsMade ≤ i + fuel ∧
      i ≤ (solveLoop env fuel i (List.replicate (i - 1) 2) lastErr).attemptsMade ∧
      (solveLoop env fuel i (List.replicate (i - 1) 2) lastErr).backoffsSec =
        List.replicate
          ((solveLoop env fuel i (List.replicate (i - 1) 2) lastErr).attemptsMade - 1) 2 := by
  intro fuel
  induction fuel with
  | zero =>
    intro i lastErr
    simp [solveLoop]
  | succ n ih =>
    intro i lastErr
    have hb : (if 0 < i then List.replicate (i - 1) 2 ++ [2] else List.replicate (i - 1) 2)
        = List.replicate i 2 := by
      cases i with
      | zero => simp
      | succ m => simp [← List.replicate_succ']
    cases hA : solveAttempt (env i) with
    | error e =>
      have heq : solveLoop env (n + 1) i (List.replicate (i - 1) 2) lastErr
          = solveLoop env n (i + 1) (List.replicate (i + 1 - 1) 2) (some e) := by
        simp only [solveLoop, hb, hA]
        simp
      rw [heq]
      have hrec := ih (i + 1) (some e)
      exact ⟨by omega, by omega, hrec.2.2⟩
    | ok tok =>
      have heq : solveLoop env (n + 1) i (List.replicate (i - 1) 2) lastErr
          = { result := Except.ok tok, attemptsMade := i + 1,
              backoffsSec := List.replicate i 2 } := by
        simp only [solveLoop, hb, hA]
      rw [heq]
      refine ⟨?_, ?_, ?_⟩
      · show i + 1 ≤ i + (n + 1)
        omega
      · show i ≤ i + 1
        omega
      · show List.replicate i 2 = List.replicate (i + 1 - 1) 2
        simp

/-- C6: a task that never leaves `processing` times out (the tick budget is
the 120-second ceiling at the 2-second period); a `ready` status with an
empty token fails the attempt with the empty-token error; the create+poll
sequence runs at most 3 times, with one fixed 2-second backoff before every
attempt after the first; if all three attempts fail, the last attempt's
error is returned; and `SolveRecaptchaV2` shares this control flow exactly. -/
theorem C6_solver_retry (env : Nat → AttemptEnv) :
    (∀ polls : Nat → PollResponse, (∀ j, polls j = PollResponse.processing) →
      waitForTaskResult polls = Except.error SolveError.timeoutWaiting) ∧
    2 * (pollTicks + 1) = 120 ∧
    (∀ polls : Nat → PollResponse, polls 0 = PollResponse.ready "" →
      waitForTaskResult polls = Except.error SolveError.emptyTokenSolution) ∧
    (solveTurnstile env).attemptsMade ≤ 3 ∧
    (solveTurnstile env).backoffsSec =
      List.replicate ((solveTurnstile env).attemptsMade - 1) 2 ∧
    (∀ e0 e1 e2, solveAttempt (env 0) = Except.error e0 →
      solveAttempt (env 1) = Except.error e1 →
      solveAttempt (env 2) = Except.error e2 →
      (solveTurnstile env).result = Except.error (some e2)) ∧
    solveRecaptchaV2 env = solveTurnstile env := by
  have hbudget := solveLoop_budget env 3 0 none
  refine ⟨?_, rfl, ?_, hbudget.1, hbudget.2.2, ?_, rfl⟩
  · intro polls hp
    exact pollLoop_all_processing polls hp pollTicks 0
  · intro polls h0
    show pollLoop polls (58 + 1) 0 = Except.error SolveError.emptyTokenSolution
    simp [pollLoop, h0]
  · intro e0 e1 e2 h0 h1 h2
    show (solveLoop env (2 + 1) 0 [] none).result = Except.error (some e2)
    rw [solveLoop]
    simp only [h0]
    show (solveLoop env (1 + 1) 1 [] (some e0)).result = Except.error (some e2)
    rw [solveLoop]
    simp only [h1]
    show (solveLoop env (0 + 1) 2 [2] (some e1)).result = Except.error (some e2)
    rw [solveLoop]
    simp only [h2]
    rfl

/-- C6 witness: the timeout branch evaluated at a concrete environment. -/
theorem C6_witness :
    waitForTaskResult (fun _ => PollResponse.processing) =
      Except.error SolveError.timeoutWaiting :=
  (C6_solver_retry c6Env).1 (fun _ => PollResponse.processing) (fun _ => rfl)

/-! ### C10: empty credentials -/

/-- C10: with the empty credential pair, client construction performs no
login attempt, and every operation that goes through `doRequest` fails with
the failed-login (invalid credentials) error before the HTTP request is
issued and without any login call. -/
theorem C10_empty_credentials (cred : Credentials) (h : cred = ⟨"", ""⟩)
    (now : Int) (env : LoginEnv) (st0 : LoginState)
    (tryLogin : Bool) (denv : DoReqEnv) (st : LoginState) :
    (newClientModel cred now env st0).1 = false ∧
    (doRequestModel cred tryLogin denv st).error = some ReqError.emptyCredentials ∧
    (doRequestModel cred tryLogin denv st).requestIssued = false ∧
    (doRequestModel cred tryLogin denv st).loginCalls = 0 := by
  subst h
  refine ⟨by simp [newClientModel], ?_, ?_, ?_⟩ <;> simp [doRequestModel]

/-- C10 witness: the empty-pair guard evaluated at concrete arguments. -/
theorem C10_witness :
    (doRequestModel ⟨"", ""⟩ true
        { now := 0, firstLoginEnv := c10LEnv, response := none, reloginEnv := c10LEnv,
          response2 := none }
        ⟨0, 0, false⟩).error = some ReqError.emptyCredentials :=
  (C10_empty_credentials ⟨"", ""⟩ rfl 0 c10LEnv ⟨0, 0, false⟩ true
      { now := 0, firstLoginEnv := c10LEnv, response := none, reloginEnv := c10LEnv,
        response2 := none }
      ⟨0, 0, false⟩).2.1
